import Mathlib

/-!
Shallow embedding of `src/databricks/koalas/indexes/datetimes.py`
(the koalas `DatetimeIndex` wrapper) and proofs of its specification claims.

The file under `src/` contains only glue code: a constructor `__new__`, a
`__getattr__` fallback, and a collection of accessor properties each
delegating to `self.to_series().dt.<op>`.  External pieces of the repository
that are not under `src/` (the base `Index` constructor, the series
datetime accessor in `databricks/koalas/datetimes.py`, the
`MissingPandasLikeDatetimeIndex` registry, and `ks.date_range`) are modelled
from the spec, each with a doc comment saying so.
-/

namespace Koalas

/-- A Python value, as far as the `name` argument of the constructor is
concerned.  Scalars, `None` and tuples of hashable values are hashable;
lists, dicts and sets are not. -/
inductive PyObj where
  | none
  | bool (b : Bool)
  | int (n : Int)
  | str (s : String)
  | tuple (items : List PyObj)
  | list (items : List PyObj)
  | dict
  | set

/-- Embedding of `pandas.api.types.is_hashable` restricted to `PyObj`:
`hash(obj)` succeeds exactly when the object is not a list/dict/set and,
for a tuple, every element is hashable. -/
def is_hashable : PyObj → Bool
  | .list _ => false
  | .dict => false
  | .set => false
  | .tuple items => goList items
  | _ => true
where
  goList : List PyObj → Bool
    | [] => true
    | x :: xs => is_hashable x && goList xs

/-- A timestamp at `datetime64[ns]` resolution, split into calendar and
clock fields (the sub-second field is carried as microseconds, which is
what the `microsecond` accessor reads). -/
structure Timestamp where
  year : Nat
  month : Nat
  day : Nat
  hour : Nat := 0
  minute : Nat := 0
  second : Nat := 0
  microsecond : Nat := 0
  deriving Repr, DecidableEq

/-- The `data` argument of `DatetimeIndex.__new__`: either nothing, an
existing koalas `Series`/`Index` (carrying its timestamp values), or raw
array-like data that still has to be parsed by pandas. -/
inductive Data where
  | pyNone
  | seriesOrIndex (values : List Timestamp)
  | arrayLike (raw : List String)
  deriving Repr, DecidableEq

/-- The `freq` argument.  `noValue` is the `_NoValue` sentinel default;
`given v` means the caller explicitly passed `v` (which may itself be the
Python value `None`). -/
inductive FreqArg where
  | noValue
  | given (v : PyObj)

/-- The keyword dictionary handed to `pd.DatetimeIndex(**kwargs)` in the
delegation branch.  `freq = none` means the key is absent from the
dictionary; `freq = some v` means it was inserted with value `v`. -/
structure PdDatetimeIndexKwargs where
  data : Data
  normalize : Bool
  closed : Option String
  ambiguous : String
  dayfirst : Bool
  yearfirst : Bool
  dtype : Option String
  copy : Bool
  name : PyObj
  freq : Option PyObj

/-- The observable outcome of `DatetimeIndex.__new__`:
a `TypeError`, a call `Index(data, dtype=dtype, copy=copy, name=name)` to
the base-class constructor (the Series/Index fast path), or a call
`ks.from_pandas(pd.DatetimeIndex(**kwargs))` (the delegation path). -/
inductive NewResult where
  | typeError (msg : String)
  | baseIndex (values : List Timestamp) (dtype : String) (copy : Bool) (name : PyObj)
  | fromPandas (kwargs : PdDatetimeIndexKwargs)

/-- Embedding of `DatetimeIndex.__new__`.  It first checks that `name` is
hashable, then takes the Series/Index fast path (defaulting `dtype` to
`"datetime64[ns]"` when it is `None` and calling the base `Index`
constructor), and otherwise builds the kwargs dictionary — inserting
`freq` only when it is not the `_NoValue` sentinel — and delegates to
`pd.DatetimeIndex`. -/
def DatetimeIndex_new (data : Data) (freq : FreqArg) (normalize : Bool)
    (closed : Option String) (ambiguous : String) (dayfirst : Bool)
    (yearfirst : Bool) (dtype : Option String) (copy : Bool) (name : PyObj) :
    NewResult :=
  if ¬ is_hashable name then
    .typeError "Index.name must be a hashable type"
  else
    match data with
    | .seriesOrIndex values =>
        let dtype' := match dtype with
          | Option.none => "datetime64[ns]"
          | some d => d
        .baseIndex values dtype' copy name
    | _ =>
        .fromPandas
          { data := data, normalize := normalize, closed := closed,
            ambiguous := ambiguous, dayfirst := dayfirst,
            yearfirst := yearfirst, dtype := dtype, copy := copy,
            name := name,
            freq := match freq with
              | .noValue => Option.none
              | .given v => some v }

/-- The `name` label stored by a successful construction (`none` for a
`TypeError`). -/
def resultName : NewResult → Option PyObj
  | .typeError _ => Option.none
  | .baseIndex _ _ _ n => some n
  | .fromPandas kw => some kw.name

/-- Whether the construction failed with a `TypeError`. -/
def isTypeError : NewResult → Bool
  | .typeError _ => true
  | _ => false

/-- Modelled from the spec: the leap-year rule stated in the
`is_leap_year` documentation — years that are multiples of four, except
years divisible by 100 but not by 400. -/
def isLeapYear (y : Nat) : Bool :=
  (y % 4 == 0 && y % 100 != 0) || y % 400 == 0

/-- Modelled from the spec: the number of days in a month of the Gregorian
calendar (the calendar arithmetic itself lives in the backing engine, not
under `src/`). -/
def daysInMonth (y m : Nat) : Nat :=
  if m == 2 then (if isLeapYear y then 29 else 28)
  else if m == 4 || m == 6 || m == 9 || m == 11 then 30
  else 31

/-- Modelled from the spec: the ordinal day of the year (1-based). -/
def dayOfYear (y m d : Nat) : Nat :=
  d + (List.range (m - 1)).foldl (fun acc i => acc + daysInMonth y (i + 1)) 0

/-- Modelled from the spec: the day of the week with Monday = 0 and
Sunday = 6 (Sakamoto's method, shifted from its Sunday = 0 convention). -/
def dayOfWeekMon0 (y m d : Nat) : Nat :=
  let t := [0, 3, 2, 5, 0, 3, 5, 1, 4, 6, 2, 4]
  let y' := if m < 3 then y - 1 else y
  (y' + y' / 4 - y' / 100 + y' / 400 + t.getD (m - 1) 0 + d + 6) % 7

/-- The ISO weekday, Monday = 1 through Sunday = 7. -/
def isoWeekday (y m d : Nat) : Nat :=
  dayOfWeekMon0 y m d + 1

/-- The number of ISO weeks in a year: 53 when January 1 falls on a
Thursday, or on a Wednesday of a leap year; 52 otherwise. -/
def isoWeeksInYear (y : Nat) : Nat :=
  if isoWeekday y 1 1 == 4 || (isLeapYear y && isoWeekday y 1 1 == 3) then 53
  else 52

/-- Modelled from the spec: the ISO week ordinal of the year (what the
backing engine's `weekofyear` computes). -/
def weekOfYear (y m d : Nat) : Nat :=
  let w := (10 + dayOfYear y m d - isoWeekday y m d) / 7
  if w == 0 then isoWeeksInYear (y - 1)
  else if w > isoWeeksInYear y then 1
  else w

/-- Per-timestamp day-of-week extraction (Monday = 0). -/
def tsDayOfWeek (t : Timestamp) : Nat :=
  dayOfWeekMon0 t.year t.month t.day

/-- Per-timestamp ISO week-of-year extraction. -/
def tsWeek (t : Timestamp) : Nat :=
  weekOfYear t.year t.month t.day

/-- Per-timestamp ordinal-day-of-year extraction. -/
def tsDayOfYear (t : Timestamp) : Nat :=
  dayOfYear t.year t.month t.day

/-- Per-timestamp quarter extraction (January–March = 1, …). -/
def tsQuarter (t : Timestamp) : Nat :=
  (t.month + 2) / 3

/-- Per-timestamp number of days in the timestamp's month. -/
def tsDaysInMonth (t : Timestamp) : Nat :=
  daysInMonth t.year t.month

/-- Whether the timestamp falls on the first day of its month. -/
def tsIsMonthStart (t : Timestamp) : Bool :=
  t.day == 1

/-- Whether the timestamp falls on the last day of its month. -/
def tsIsMonthEnd (t : Timestamp) : Bool :=
  t.day == daysInMonth t.year t.month

/-- Whether the timestamp falls on the first day of a quarter. -/
def tsIsQuarterStart (t : Timestamp) : Bool :=
  t.month % 3 == 1 && t.day == 1

/-- Whether the timestamp falls on the last day of a quarter. -/
def tsIsQuarterEnd (t : Timestamp) : Bool :=
  t.month % 3 == 0 && t.day == daysInMonth t.year t.month

/-- Whether the timestamp falls on January 1. -/
def tsIsYearStart (t : Timestamp) : Bool :=
  t.month == 1 && t.day == 1

/-- Whether the timestamp falls on December 31. -/
def tsIsYearEnd (t : Timestamp) : Bool :=
  t.month == 12 && t.day == 31

/-- Whether the timestamp's year is a leap year. -/
def tsIsLeapYear (t : Timestamp) : Bool :=
  isLeapYear t.year

/-- A single-column series of values, the local representation produced by
`Index.to_series()`. -/
structure KSeries (α : Type) where
  values : List α
  deriving Repr, DecidableEq

/-- An index wrapping a column of values, the result of the base `Index`
constructor applied to a series. -/
structure KIndex (α : Type) where
  values : List α
  deriving Repr, DecidableEq

/-- Modelled from the spec: the base `Index(series)` call (the base class
lives in `indexes/base.py`, not under `src/`) wraps the series' column as a
new index, preserving the values. -/
def mkIndex {α : Type} (s : KSeries α) : KIndex α :=
  ⟨s.values⟩

/-- The datetime index itself: an ordered sequence of timestamps backed by
a column, with an optional name label. -/
structure DatetimeIndex where
  values : List Timestamp
  name : Option String := Option.none
  deriving Repr, DecidableEq

/-- Modelled from the spec: `self.to_series()` converts the index to its
equivalent single-column series representation, preserving the values. -/
def DatetimeIndex.to_series (self : DatetimeIndex) : KSeries Timestamp :=
  ⟨self.values⟩

namespace SeriesDt

/-- Modelled from the spec: `Series.dt.year` (the series datetime accessor
lives in `databricks/koalas/datetimes.py`, not under `src/`): the engine
extracts the named field column-wise. -/
def year (s : KSeries Timestamp) : KSeries Nat :=
  ⟨s.values.map Timestamp.year⟩

/-- Modelled from the spec: `Series.dt.month`. -/
def month (s : KSeries Timestamp) : KSeries Nat :=
  ⟨s.values.map Timestamp.month⟩

/-- Modelled from the spec: `Series.dt.day`. -/
def day (s : KSeries Timestamp) : KSeries Nat :=
  ⟨s.values.map Timestamp.day⟩

/-- Modelled from the spec: `Series.dt.hour`. -/
def hour (s : KSeries Timestamp) : KSeries Nat :=
  ⟨s.values.map Timestamp.hour⟩

/-- Modelled from the spec: `Series.dt.minute`. -/
def minute (s : KSeries Timestamp) : KSeries Nat :=
  ⟨s.values.map Timestamp.minute⟩

/-- Modelled from the spec: `Series.dt.second`. -/
def second (s : KSeries Timestamp) : KSeries Nat :=
  ⟨s.values.map Timestamp.second⟩

/-- Modelled from the spec: `Series.dt.microsecond`. -/
def microsecond (s : KSeries Timestamp) : KSeries Nat :=
  ⟨s.values.map Timestamp.microsecond⟩

/-- Modelled from the spec: `Series.dt.week`, the ISO week ordinal. -/
def week (s : KSeries Timestamp) : KSeries Nat :=
  ⟨s.values.map tsWeek⟩

/-- Modelled from the spec: `Series.dt.weekofyear` is the same operation
as `Series.dt.week` (the spec records them as pure aliases). -/
def weekofyear (s : KSeries Timestamp) : KSeries Nat :=
  week s

/-- Modelled from the spec: `Series.dt.dayofweek`, Monday = 0 … Sunday = 6. -/
def dayofweek (s : KSeries Timestamp) : KSeries Nat :=
  ⟨s.values.map tsDayOfWeek⟩

/-- Modelled from the spec: `Series.dt.weekday` is the same operation as
`Series.dt.dayofweek` (the spec records them as pure aliases). -/
def weekday (s : KSeries Timestamp) : KSeries Nat :=
  dayofweek s

/-- Modelled from the spec: `Series.dt.dayofyear`. -/
def dayofyear (s : KSeries Timestamp) : KSeries Nat :=
  ⟨s.values.map tsDayOfYear⟩

/-- Modelled from the spec: `Series.dt.quarter`. -/
def quarter (s : KSeries Timestamp) : KSeries Nat :=
  ⟨s.values.map tsQuarter⟩

/-- Modelled from the spec: `Series.dt.is_month_start`. -/
def is_month_start (s : KSeries Timestamp) : KSeries Bool :=
  ⟨s.values.map tsIsMonthStart⟩

/-- Modelled from the spec: `Series.dt.is_month_end`. -/
def is_month_end (s : KSeries Timestamp) : KSeries Bool :=
  ⟨s.values.map tsIsMonthEnd⟩

/-- Modelled from the spec: `Series.dt.is_quarter_start`. -/
def is_quarter_start (s : KSeries Timestamp) : KSeries Bool :=
  ⟨s.values.map tsIsQuarterStart⟩

/-- Modelled from the spec: `Series.dt.is_quarter_end`. -/
def is_quarter_end (s : KSeries Timestamp) : KSeries Bool :=
  ⟨s.values.map tsIsQuarterEnd⟩

/-- Modelled from the spec: `Series.dt.is_year_start`. -/
def is_year_start (s : KSeries Timestamp) : KSeries Bool :=
  ⟨s.values.map tsIsYearStart⟩

/-- Modelled from the spec: `Series.dt.is_year_end`. -/
def is_year_end (s : KSeries Timestamp) : KSeries Bool :=
  ⟨s.values.map tsIsYearEnd⟩

/-- Modelled from the spec: `Series.dt.is_leap_year`. -/
def is_leap_year (s : KSeries Timestamp) : KSeries Bool :=
  ⟨s.values.map tsIsLeapYear⟩

/-- Modelled from the spec: `Series.dt.daysinmonth`. -/
def daysinmonth (s : KSeries Timestamp) : KSeries Nat :=
  ⟨s.values.map tsDaysInMonth⟩

/-- Modelled from the spec: `Series.dt.days_in_month` is the same
operation as `Series.dt.daysinmonth` (the spec records them as pure
aliases). -/
def days_in_month (s : KSeries Timestamp) : KSeries Nat :=
  daysinmonth s

end SeriesDt

namespace DatetimeIndex

/-- `DatetimeIndex.year`: `Index(self.to_series().dt.year)`. -/
def year (self : DatetimeIndex) : KIndex Nat :=
  mkIndex (SeriesDt.year self.to_series)

/-- `DatetimeIndex.month`: `Index(self.to_series().dt.month)`. -/
def month (self : DatetimeIndex) : KIndex Nat :=
  mkIndex (SeriesDt.month self.to_series)

/-- `DatetimeIndex.day`: `Index(self.to_series().dt.day)`. -/
def day (self : DatetimeIndex) : KIndex Nat :=
  mkIndex (SeriesDt.day self.to_series)

/-- `DatetimeIndex.hour`: `Index(self.to_series().dt.hour)`. -/
def hour (self : DatetimeIndex) : KIndex Nat :=
  mkIndex (SeriesDt.hour self.to_series)

/-- `DatetimeIndex.minute`: `Index(self.to_series().dt.minute)`. -/
def minute (self : DatetimeIndex) : KIndex Nat :=
  mkIndex (SeriesDt.minute self.to_series)

/-- `DatetimeIndex.second`: `Index(self.to_series().dt.second)`. -/
def second (self : DatetimeIndex) : KIndex Nat :=
  mkIndex (SeriesDt.second self.to_series)

/-- `DatetimeIndex.microsecond`: `Index(self.to_series().dt.microsecond)`. -/
def microsecond (self : DatetimeIndex) : KIndex Nat :=
  mkIndex (SeriesDt.microsecond self.to_series)

/-- `DatetimeIndex.week`: `Index(self.to_series().dt.week)`. -/
def week (self : DatetimeIndex) : KIndex Nat :=
  mkIndex (SeriesDt.week self.to_series)

/-- `DatetimeIndex.weekofyear`: `Index(self.to_series().dt.weekofyear)`. -/
def weekofyear (self : DatetimeIndex) : KIndex Nat :=
  mkIndex (SeriesDt.weekofyear self.to_series)

/-- `DatetimeIndex.dayofweek`: `Index(self.to_series().dt.dayofweek)`. -/
def dayofweek (self : DatetimeIndex) : KIndex Nat :=
  mkIndex (SeriesDt.dayofweek self.to_series)

/-- `DatetimeIndex.day_of_week`: `return self.dayofweek` (a call to
another accessor of the index, not a direct `dt` delegation). -/
def day_of_week (self : DatetimeIndex) : KIndex Nat :=
  self.dayofweek

/-- `DatetimeIndex.weekday`: `Index(self.to_series().dt.weekday)`. -/
def weekday (self : DatetimeIndex) : KIndex Nat :=
  mkIndex (SeriesDt.weekday self.to_series)

/-- `DatetimeIndex.dayofyear`: `Index(self.to_series().dt.dayofyear)`. -/
def dayofyear (self : DatetimeIndex) : KIndex Nat :=
  mkIndex (SeriesDt.dayofyear self.to_series)

/-- `DatetimeIndex.day_of_year`: `return self.dayofyear` (a call to
another accessor of the index, not a direct `dt` delegation). -/
def day_of_year (self : DatetimeIndex) : KIndex Nat :=
  self.dayofyear

/-- `DatetimeIndex.quarter`: `Index(self.to_series().dt.quarter)`. -/
def quarter (self : DatetimeIndex) : KIndex Nat :=
  mkIndex (SeriesDt.quarter self.to_series)

/-- `DatetimeIndex.is_month_start`:
`Index(self.to_series().dt.is_month_start)`. -/
def is_month_start (self : DatetimeIndex) : KIndex Bool :=
  mkIndex (SeriesDt.is_month_start self.to_series)

/-- `DatetimeIndex.is_month_end`:
`Index(self.to_series().dt.is_month_end)`. -/
def is_month_end (self : DatetimeIndex) : KIndex Bool :=
  mkIndex (SeriesDt.is_month_end self.to_series)

/-- `DatetimeIndex.is_quarter_start`:
`Index(self.to_series().dt.is_quarter_start)`. -/
def is_quarter_start (self : DatetimeIndex) : KIndex Bool :=
  mkIndex (SeriesDt.is_quarter_start self.to_series)

/-- `DatetimeIndex.is_quarter_end`:
`Index(self.to_series().dt.is_quarter_end)`. -/
def is_quarter_end (self : DatetimeIndex) : KIndex Bool :=
  mkIndex (SeriesDt.is_quarter_end self.to_series)

/-- `DatetimeIndex.is_year_start`:
`Index(self.to_series().dt.is_year_start)`. -/
def is_year_start (self : DatetimeIndex) : KIndex Bool :=
  mkIndex (SeriesDt.is_year_start self.to_series)

/-- `DatetimeIndex.is_year_end`: `Index(self.to_series().dt.is_year_end)`. -/
def is_year_end (self : DatetimeIndex) : KIndex Bool :=
  mkIndex (SeriesDt.is_year_end self.to_series)

/-- `DatetimeIndex.is_leap_year`:
`Index(self.to_series().dt.is_leap_year)`. -/
def is_leap_year (self : DatetimeIndex) : KIndex Bool :=
  mkIndex (SeriesDt.is_leap_year self.to_series)

/-- `DatetimeIndex.daysinmonth`: `Index(self.to_series().dt.daysinmonth)`. -/
def daysinmonth (self : DatetimeIndex) : KIndex Nat :=
  mkIndex (SeriesDt.daysinmonth self.to_series)

/-- `DatetimeIndex.days_in_month`:
`Index(self.to_series().dt.days_in_month)`. -/
def days_in_month (self : DatetimeIndex) : KIndex Nat :=
  mkIndex (SeriesDt.days_in_month self.to_series)

end DatetimeIndex

/-- Modelled from the spec: the successor day in the Gregorian calendar,
used to model `ks.date_range` with daily frequency. -/
def nextDay (t : Timestamp) : Timestamp :=
  if t.day < daysInMonth t.year t.month then { t with day := t.day + 1 }
  else if t.month < 12 then { t with month := t.month + 1, day := 1 }
  else { t with year := t.year + 1, month := 1, day := 1 }

/-- Modelled from the spec: `ks.date_range(start, periods=n, freq="D")`
generates `n` consecutive daily timestamps starting at `start`. -/
def dateRangeDaily (start : Timestamp) : Nat → List Timestamp
  | 0 => []
  | n + 1 => start :: dateRangeDaily (nextDay start) n

/-- Date-and-time lexicographic order on timestamps. -/
def tsLE (a b : Timestamp) : Bool :=
  if a.year != b.year then a.year < b.year
  else if a.month != b.month then a.month < b.month
  else if a.day != b.day then a.day < b.day
  else if a.hour != b.hour then a.hour < b.hour
  else if a.minute != b.minute then a.minute < b.minute
  else if a.second != b.second then a.second < b.second
  else decide (a.microsecond ≤ b.microsecond)

/-- Modelled from the spec: `ks.date_range(start, stop, freq="Y")`
generates the year-end (December 31) dates lying within `[start, stop]`. -/
def dateRangeYearEnds (start stop : Timestamp) : List Timestamp :=
  ((List.range (stop.year + 1 - start.year)).map
      (fun i => ({ year := start.year + i, month := 12, day := 31 } :
        Timestamp))).filter
    (fun t => tsLE start t && tsLE t stop)

/-- The `dt` extraction operations that the accessor properties of
`DatetimeIndex` delegate to, one constructor per attribute name on the
series datetime accessor. -/
inductive DtOp where
  | year | month | day | hour | minute | second | microsecond
  | week | weekofyear | dayofweek | weekday | dayofyear | quarter
  | is_month_start | is_month_end | is_quarter_start | is_quarter_end
  | is_year_start | is_year_end | is_leap_year | daysinmonth | days_in_month
  deriving Repr, DecidableEq

/-- The body shape of an accessor property of `DatetimeIndex`: either
`return Index(self.to_series().dt.<op>)` (a direct single-hop delegation)
or `return self.<other>` (a call to another accessor of the index). -/
inductive AccessorBody where
  | dtDelegate (op : DtOp)
  | selfAccessor (other : String)
  deriving Repr, DecidableEq

/-- The accessor property names defined on `DatetimeIndex`, in source
order. -/
def accessorNames : List String :=
  ["year", "month", "day", "hour", "minute", "second", "microsecond",
   "week", "weekofyear", "dayofweek", "day_of_week", "weekday",
   "dayofyear", "day_of_year", "quarter", "is_month_start", "is_month_end",
   "is_quarter_start", "is_quarter_end", "is_year_start", "is_year_end",
   "is_leap_year", "daysinmonth", "days_in_month"]

/-- Transcription of each accessor property's body from the source:
every property is `Index(self.to_series().dt.<same name>)` except
`day_of_week`, which is `return self.dayofweek`, and `day_of_year`, which
is `return self.dayofyear`. -/
def accessorBody : String → Option AccessorBody
  | "year" => some (.dtDelegate .year)
  | "month" => some (.dtDelegate .month)
  | "day" => some (.dtDelegate .day)
  | "hour" => some (.dtDelegate .hour)
  | "minute" => some (.dtDelegate .minute)
  | "second" => some (.dtDelegate .second)
  | "microsecond" => some (.dtDelegate .microsecond)
  | "week" => some (.dtDelegate .week)
  | "weekofyear" => some (.dtDelegate .weekofyear)
  | "dayofweek" => some (.dtDelegate .dayofweek)
  | "day_of_week" => some (.selfAccessor "dayofweek")
  | "weekday" => some (.dtDelegate .weekday)
  | "dayofyear" => some (.dtDelegate .dayofyear)
  | "day_of_year" => some (.selfAccessor "dayofyear")
  | "quarter" => some (.dtDelegate .quarter)
  | "is_month_start" => some (.dtDelegate .is_month_start)
  | "is_month_end" => some (.dtDelegate .is_month_end)
  | "is_quarter_start" => some (.dtDelegate .is_quarter_start)
  | "is_quarter_end" => some (.dtDelegate .is_quarter_end)
  | "is_year_start" => some (.dtDelegate .is_year_start)
  | "is_year_end" => some (.dtDelegate .is_year_end)
  | "is_leap_year" => some (.dtDelegate .is_leap_year)
  | "daysinmonth" => some (.dtDelegate .daysinmonth)
  | "days_in_month" => some (.dtDelegate .days_in_month)
  | _ => Option.none

/-- Whether an accessor body is a direct single-hop `dt` delegation. -/
def isDtDelegate : Option AccessorBody → Bool
  | some (.dtDelegate _) => true
  | _ => false

/-- The `dt` operation directly invoked by an accessor body, if any. -/
def directOp : Option AccessorBody → Option DtOp
  | some (.dtDelegate op) => some op
  | _ => Option.none

/-- The `dt` operation ultimately reached by an accessor body: either its
own direct delegation, or — for a `self.<other>` body — the direct
delegation of the accessor it calls. -/
def resolveOp : AccessorBody → Option DtOp
  | .dtDelegate op => some op
  | .selfAccessor other => directOp (accessorBody other)

/-- The `dt` operation ultimately reached by the named accessor. -/
def accessorOp (n : String) : Option DtOp :=
  (accessorBody n).bind resolveOp

/-- A cell of a computed result column: the extraction operations return
integers or booleans. -/
inductive Cell where
  | nat (n : Nat)
  | bool (b : Bool)
  deriving Repr, DecidableEq

/-- The per-timestamp semantics of each `dt` extraction operation, used by
the heap-based evaluation of accessors. -/
def interpOp : DtOp → Timestamp → Cell
  | .year, t => .nat t.year
  | .month, t => .nat t.month
  | .day, t => .nat t.day
  | .hour, t => .nat t.hour
  | .minute, t => .nat t.minute
  | .second, t => .nat t.second
  | .microsecond, t => .nat t.microsecond
  | .week, t => .nat (tsWeek t)
  | .weekofyear, t => .nat (tsWeek t)
  | .dayofweek, t => .nat (tsDayOfWeek t)
  | .weekday, t => .nat (tsDayOfWeek t)
  | .dayofyear, t => .nat (tsDayOfYear t)
  | .quarter, t => .nat (tsQuarter t)
  | .is_month_start, t => .bool (tsIsMonthStart t)
  | .is_month_end, t => .bool (tsIsMonthEnd t)
  | .is_quarter_start, t => .bool (tsIsQuarterStart t)
  | .is_quarter_end, t => .bool (tsIsQuarterEnd t)
  | .is_year_start, t => .bool (tsIsYearStart t)
  | .is_year_end, t => .bool (tsIsYearEnd t)
  | .is_leap_year, t => .bool (tsIsLeapYear t)
  | .daysinmonth, t => .nat (tsDaysInMonth t)
  | .days_in_month, t => .nat (tsDaysInMonth t)

/-- A datetime-index object living on the heap. -/
structure HeapDtObj where
  values : List Timestamp
  name : Option String
  deriving Repr, DecidableEq

/-- A heap object: either a datetime index or a result index produced by
an accessor. -/
inductive HObj where
  | dtIdx (o : HeapDtObj)
  | resIdx (values : List Cell)
  deriving Repr, DecidableEq

/-- An object heap: objects are addressed by their list position, and new
objects are allocated at the end. -/
structure Heap where
  objs : List HObj
  deriving Repr, DecidableEq

/-- Heap-based evaluation of an accessor property: read the datetime-index
object at address `i`, compute the column by applying the resolved `dt`
operation to each timestamp, and allocate the result as a new index object
at a fresh address, leaving every existing object in place. -/
def evalAccessor (h : Heap) (i : Nat) (acc : String) : Option (Heap × Nat) :=
  match h.objs[i]? with
  | some (.dtIdx o) =>
      match accessorOp acc with
      | some op =>
          some (⟨h.objs ++ [.resIdx (o.values.map (interpOp op))]⟩,
            h.objs.length)
      | Option.none => Option.none
  | _ => Option.none

/-- A member of the compatibility registry
(`MissingPandasLikeDatetimeIndex`): either a property, whose getter is
applied to the index, or a plain function, to which the index is bound as
first argument via `partial`. -/
inductive RegistryEntry (π φ : Type) where
  | prop (fget : DatetimeIndex → π)
  | func (f : DatetimeIndex → φ)

/-- The outcome of `DatetimeIndex.__getattr__`. -/
inductive GetattrResult (π φ : Type) where
  | propValue (v : π)
  | boundFunc (f : φ)
  | attrError (msg : String)

/-- Embedding of `DatetimeIndex.__getattr__`, parametric in the
compatibility registry (the registry `MissingPandasLikeDatetimeIndex`
itself lives in `databricks/koalas/missing/indexes.py`, not under `src/`):
if the item is present in the registry, invoke the stand-in — a property's
getter applied to `self`, or `partial(func, self)`; otherwise raise
`AttributeError` naming the type and the item. -/
def dtindex_getattr {π φ : Type}
    (registry : String → Option (RegistryEntry π φ))
    (self : DatetimeIndex) (item : String) : GetattrResult π φ :=
  match registry item with
  | some (.prop fget) => .propValue (fget self)
  | some (.func f) => .boundFunc (f self)
  | Option.none =>
      .attrError ("'DatetimeIndex' object has no attribute '" ++ item ++ "'")

/-- The index covering 2016-12-31 through 2017-01-08 with daily frequency
(nine daily periods). -/
def dowRangeIdx : DatetimeIndex :=
  ⟨dateRangeDaily ⟨2016, 12, 31, 0, 0, 0, 0⟩ 9, Option.none⟩

/-- The index covering 2012-01-01 to 2015-01-01 with yearly frequency. -/
def leapRangeIdx : DatetimeIndex :=
  ⟨dateRangeYearEnds ⟨2012, 1, 1, 0, 0, 0, 0⟩ ⟨2015, 1, 1, 0, 0, 0, 0⟩,
   Option.none⟩

/-- An empty datetime index, used as a concrete receiver. -/
def emptyIdx : DatetimeIndex :=
  ⟨[], Option.none⟩

/-- A small concrete compatibility registry with one property stand-in and
one function stand-in. -/
def sampleRegistry : String → Option (RegistryEntry Unit Unit)
  | "freq" => some (.prop (fun _ => ()))
  | "strftime" => some (.func (fun _ => ()))
  | _ => Option.none

/-- A one-object heap holding a single datetime index. -/
def sampleHeap : Heap :=
  ⟨[.dtIdx ⟨[⟨2016, 12, 31, 0, 0, 0, 0⟩], Option.none⟩]⟩

end Koalas

open Koalas

/-- C1: for every hashable `name`, `DatetimeIndex.__new__` succeeds (no
`TypeError`) and the resulting index's name is exactly the input; for every
unhashable `name` it returns `TypeError "Index.name must be a hashable
type"` — uniformly in all the other arguments, i.e. before the fast path
or the `pd.DatetimeIndex` delegation is ever reached. -/
theorem C1_name_hashability (data : Data) (freq : FreqArg) (normalize : Bool)
    (closed : Option String) (ambiguous : String) (dayfirst : Bool)
    (yearfirst : Bool) (dtype : Option String) (copy : Bool) (name : PyObj) :
    (is_hashable name = true →
      isTypeError (DatetimeIndex_new data freq normalize closed ambiguous
        dayfirst yearfirst dtype copy name) = false ∧
      resultName (DatetimeIndex_new data freq normalize closed ambiguous
        dayfirst yearfirst dtype copy name) = some name) ∧
    (is_hashable name = false →
      DatetimeIndex_new data freq normalize closed ambiguous
        dayfirst yearfirst dtype copy name =
          .typeError "Index.name must be a hashable type") := by
  constructor
  · intro h
    simp only [DatetimeIndex_new, h, Bool.true_eq_false, not_false_eq_true,
      if_true, reduceIte]
    cases data <;> simp [resultName, isTypeError]
  · intro h
    simp [DatetimeIndex_new, h]

/-- Witness for C1 at concrete inputs: the hashable name `"x"` succeeds with
that name stored, and the unhashable name `[]` (a Python list) fails with
the exact `TypeError`. -/
theorem C1_name_hashability_witness :
    (isTypeError (DatetimeIndex_new .pyNone .noValue false Option.none
        "raise" false false Option.none false (.str "x")) = false ∧
      resultName (DatetimeIndex_new .pyNone .noValue false Option.none
        "raise" false false Option.none false (.str "x")) =
          some (.str "x")) ∧
    DatetimeIndex_new .pyNone .noValue false Option.none "raise" false false
        Option.none false (.list []) =
      .typeError "Index.name must be a hashable type" :=
  ⟨(C1_name_hashability .pyNone .noValue false Option.none "raise" false
      false Option.none false (.str "x")).1 (by decide),
   (C1_name_hashability .pyNone .noValue false Option.none "raise" false
      false Option.none false (.list [])).2 (by decide)⟩

/-- C2 counterexample: with `data` an existing Series/Index and the caller
explicitly passing `dtype="int64"`, the constructor forwards `"int64"`
unchanged to the base `Index` constructor instead of coercing the dtype to
`"datetime64[ns]"`, refuting the claim that the dtype is always coerced to
nanosecond timestamp on this branch. -/
theorem C2_counterexample :
    DatetimeIndex_new (.seriesOrIndex [⟨2021, 3, 1, 0, 0, 0, 0⟩]) .noValue
        false Option.none "raise" false false (some "int64") false .none =
      .baseIndex [⟨2021, 3, 1, 0, 0, 0, 0⟩] "int64" false .none ∧
    "int64" ≠ "datetime64[ns]" :=
  ⟨rfl, by decide⟩

/-- C2 (amended): for an existing Series/Index input with a hashable name,
no re-parsing occurs (the result is a base `Index` call, never a
`pd.DatetimeIndex` delegation) and the values are forwarded exactly, with
the `copy` flag and `name` passed through; the dtype is coerced to
`"datetime64[ns]"` exactly when the caller did not pass an explicit
`dtype`, and an explicit dtype is forwarded unchanged. -/
theorem C2_series_fast_path (values : List Timestamp) (freq : FreqArg)
    (normalize : Bool) (closed : Option String) (ambiguous : String)
    (dayfirst : Bool) (yearfirst : Bool) (copy : Bool) (name : PyObj)
    (h : is_hashable name = true) :
    DatetimeIndex_new (.seriesOrIndex values) freq normalize closed ambiguous
        dayfirst yearfirst Option.none copy name =
      .baseIndex values "datetime64[ns]" copy name ∧
    ∀ d : String,
      DatetimeIndex_new (.seriesOrIndex values) freq normalize closed
          ambiguous dayfirst yearfirst (some d) copy name =
        .baseIndex values d copy name := by
  constructor
  · simp [DatetimeIndex_new, h]
  · intro d
    simp [DatetimeIndex_new, h]

/-- Witness for C2 at a concrete input: a one-element series with no dtype
is wrapped as a base `Index` with dtype `"datetime64[ns]"`, same values. -/
theorem C2_series_fast_path_witness :
    DatetimeIndex_new (.seriesOrIndex [⟨2021, 3, 1, 0, 0, 0, 0⟩]) .noValue
        false Option.none "raise" false false Option.none true (.str "a") =
      .baseIndex [⟨2021, 3, 1, 0, 0, 0, 0⟩] "datetime64[ns]" true
        (.str "a") :=
  (C2_series_fast_path [⟨2021, 3, 1, 0, 0, 0, 0⟩] .noValue false Option.none
    "raise" false false true (.str "a") (by decide)).1

/-- C3: on the delegation path (data not a Series/Index, name hashable),
the kwargs dictionary handed to `pd.DatetimeIndex` omits the `freq` key
exactly when the caller left `freq` at its `_NoValue` sentinel default, and
contains the caller's explicit value (including an explicit Python `None`)
otherwise. -/
theorem C3_freq_sentinel (data : Data) (freq : FreqArg) (normalize : Bool)
    (closed : Option String) (ambiguous : String) (dayfirst : Bool)
    (yearfirst : Bool) (dtype : Option String) (copy : Bool) (name : PyObj)
    (hname : is_hashable name = true)
    (hdata : ∀ values, data ≠ .seriesOrIndex values) :
    ∃ kw : PdDatetimeIndexKwargs,
      DatetimeIndex_new data freq normalize closed ambiguous dayfirst
          yearfirst dtype copy name = .fromPandas kw ∧
      kw.freq = (match freq with
        | .noValue => Option.none
        | .given v => some v) := by
  cases data with
  | seriesOrIndex values => exact absurd rfl (hdata values)
  | pyNone =>
      refine ⟨⟨.pyNone, normalize, closed, ambiguous, dayfirst, yearfirst,
        dtype, copy, name,
        match freq with | .noValue => Option.none | .given v => some v⟩,
        ?_, rfl⟩
      simp [DatetimeIndex_new, hname]
  | arrayLike raw =>
      refine ⟨⟨.arrayLike raw, normalize, closed, ambiguous, dayfirst,
        yearfirst, dtype, copy, name,
        match freq with | .noValue => Option.none | .given v => some v⟩,
        ?_, rfl⟩
      simp [DatetimeIndex_new, hname]

/-- Witness for C3 at concrete inputs: with the sentinel default the `freq`
key is absent; with an explicit `None` it is present and holds `None`. -/
theorem C3_freq_sentinel_witness :
    (∃ kw : PdDatetimeIndexKwargs,
      DatetimeIndex_new (.arrayLike ["1970-01-01"]) .noValue false
          Option.none "raise" false false Option.none false .none =
        .fromPandas kw ∧ kw.freq = Option.none) ∧
    (∃ kw : PdDatetimeIndexKwargs,
      DatetimeIndex_new (.arrayLike ["1970-01-01"]) (.given .none) false
          Option.none "raise" false false Option.none false .none =
        .fromPandas kw ∧ kw.freq = some PyObj.none) :=
  ⟨C3_freq_sentinel (.arrayLike ["1970-01-01"]) .noValue false Option.none
      "raise" false false Option.none false .none (by decide)
      (fun _ => by simp),
   C3_freq_sentinel (.arrayLike ["1970-01-01"]) (.given .none) false
      Option.none "raise" false false Option.none false .none (by decide)
      (fun _ => by simp)⟩

/-- C10: on the Series/Index fast path all the parsing-configuration
parameters (`freq`, `normalize`, `closed`, `ambiguous`, `dayfirst`,
`yearfirst`) are ignored — the result is the same for any two choices of
them — and an explicit `dtype` is forwarded unchanged, the
`"datetime64[ns]"` coercion applying only when `dtype` is `None`. -/
theorem C10_fast_path_ignores_parsing_config (values : List Timestamp)
    (freq freq' : FreqArg) (normalize normalize' : Bool)
    (closed closed' : Option String) (ambiguous ambiguous' : String)
    (dayfirst dayfirst' : Bool) (yearfirst yearfirst' : Bool)
    (dtype : Option String) (copy : Bool) (name : PyObj)
    (h : is_hashable name = true) :
    DatetimeIndex_new (.seriesOrIndex values) freq normalize closed ambiguous
        dayfirst yearfirst dtype copy name =
      DatetimeIndex_new (.seriesOrIndex values) freq' normalize' closed'
        ambiguous' dayfirst' yearfirst' dtype copy name ∧
    (∀ d : String,
      DatetimeIndex_new (.seriesOrIndex values) freq normalize closed
          ambiguous dayfirst yearfirst (some d) copy name =
        .baseIndex values d copy name) ∧
    DatetimeIndex_new (.seriesOrIndex values) freq normalize closed ambiguous
        dayfirst yearfirst Option.none copy name =
      .baseIndex values "datetime64[ns]" copy name := by
  refine ⟨?_, fun d => ?_, ?_⟩ <;> simp [DatetimeIndex_new, h]

/-- Witness for C10 at a concrete input: changing every
parsing-configuration parameter leaves the fast-path result unchanged, and
an explicit `"int64"` dtype is forwarded as is. -/
theorem C10_fast_path_ignores_parsing_config_witness :
    (DatetimeIndex_new (.seriesOrIndex [⟨1970, 1, 1, 0, 0, 0, 0⟩]) .noValue
        false Option.none "raise" false false Option.none false .none =
      DatetimeIndex_new (.seriesOrIndex [⟨1970, 1, 1, 0, 0, 0, 0⟩])
        (.given (.str "D")) true (some "left") "infer" true true Option.none
        false .none) ∧
    DatetimeIndex_new (.seriesOrIndex [⟨1970, 1, 1, 0, 0, 0, 0⟩]) .noValue
        false Option.none "raise" false false (some "int64") false .none =
      .baseIndex [⟨1970, 1, 1, 0, 0, 0, 0⟩] "int64" false .none :=
  ⟨(C10_fast_path_ignores_parsing_config [⟨1970, 1, 1, 0, 0, 0, 0⟩] .noValue
      (.given (.str "D")) false true Option.none (some "left") "raise"
      "infer" false true false true Option.none false .none (by decide)).1,
   (C10_fast_path_ignores_parsing_config [⟨1970, 1, 1, 0, 0, 0, 0⟩] .noValue
      (.given (.str "D")) false true Option.none (some "left") "raise"
      "infer" false true false true Option.none false .none (by decide)).2.1
      "int64"⟩

/-- C4: the alias accessors produce results identical to their canonical
counterpart: `weekofyear` equals `week`; `dayofweek`, `day_of_week` and
`weekday` are pairwise identical; `dayofyear` equals `day_of_year`;
`daysinmonth` equals `days_in_month`. -/
theorem C4_alias_accessors (idx : DatetimeIndex) :
    idx.weekofyear = idx.week ∧
    idx.dayofweek = idx.day_of_week ∧
    idx.day_of_week = idx.weekday ∧
    idx.dayofweek = idx.weekday ∧
    idx.dayofyear = idx.day_of_year ∧
    idx.daysinmonth = idx.days_in_month :=
  ⟨rfl, rfl, rfl, rfl, rfl, rfl⟩

/-- C6: on the daily index running from 2016-12-31 through 2017-01-08, the
`dayofweek` accessor yields exactly `[5, 6, 0, 1, 2, 3, 4, 5, 6]`, with
Monday encoded as 0 and Sunday as 6. -/
theorem C6_dayofweek_fixed_span :
    dowRangeIdx.values.head? = some ⟨2016, 12, 31, 0, 0, 0, 0⟩ ∧
    dowRangeIdx.values.getLast? = some ⟨2017, 1, 8, 0, 0, 0, 0⟩ ∧
    (DatetimeIndex.dayofweek dowRangeIdx).values =
      [5, 6, 0, 1, 2, 3, 4, 5, 6] := by
  decide

/-- C7: on the yearly index covering 2012-01-01 to 2015-01-01 (the
year-end dates 2012-12-31, 2013-12-31 and 2014-12-31), the `is_leap_year`
accessor yields exactly `[True, False, False]`. -/
theorem C7_is_leap_year_fixed_span :
    leapRangeIdx.values =
      [⟨2012, 12, 31, 0, 0, 0, 0⟩, ⟨2013, 12, 31, 0, 0, 0, 0⟩,
       ⟨2014, 12, 31, 0, 0, 0, 0⟩] ∧
    (DatetimeIndex.is_leap_year leapRangeIdx).values =
      [true, false, false] := by
  decide

/-- C8 counterexample: the `day_of_week` accessor is not an independent
single-hop `dt` delegation — its body is `return self.dayofweek`, a call
to another accessor of the index — refuting the claim that every accessor
is a single-hop delegation sharing no computation with the others. -/
theorem C8_counterexample :
    "day_of_week" ∈ accessorNames ∧
    accessorBody "day_of_week" = some (.selfAccessor "dayofweek") ∧
    isDtDelegate (accessorBody "day_of_week") = false := by
  decide

/-- C8 (amended): every accessor property except `day_of_week` and
`day_of_year` is an independent single-hop `dt` delegation, and the `dt`
operations invoked by those direct delegations are pairwise distinct;
`day_of_week` is computed by calling the index's `dayofweek` accessor and
`day_of_year` by calling `dayofyear`, each therefore extensionally equal
to the accessor it calls. -/
theorem C8_single_hop_amended :
    ((accessorNames.filter
        (fun n => !(n == "day_of_week") && !(n == "day_of_year"))).all
      (fun n => isDtDelegate (accessorBody n))) = true ∧
    accessorBody "day_of_week" = some (.selfAccessor "dayofweek") ∧
    accessorBody "day_of_year" = some (.selfAccessor "dayofyear") ∧
    (accessorNames.filterMap (fun n => directOp (accessorBody n))).Nodup ∧
    (∀ idx : DatetimeIndex, idx.day_of_week = idx.dayofweek) ∧
    (∀ idx : DatetimeIndex, idx.day_of_year = idx.dayofyear) :=
  ⟨by decide, by decide, by decide, by decide, fun _ => rfl, fun _ => rfl⟩

/-- Every accessor name resolves, in at most one `self` hop, to a `dt`
operation. -/
theorem accessorOp_resolves :
    ∀ n ∈ accessorNames, (accessorOp n).isSome = true := by
  decide

/-- C9: evaluating any accessor property on a datetime-index object stored
in the heap allocates the result as a new index object at a fresh address
(the old heap length), leaves every pre-existing object — in particular
the original index — unchanged, and the new object's column is freshly
computed by applying the accessor's `dt` operation to the original
values. -/
theorem C9_accessor_frame (h : Heap) (i : Nat) (acc : String) (o : HeapDtObj)
    (hobj : h.objs[i]? = some (.dtIdx o)) (hacc : acc ∈ accessorNames) :
    ∃ (h' : Heap) (r : Nat) (op : DtOp),
      accessorOp acc = some op ∧
      evalAccessor h i acc = some (h', r) ∧
      r = h.objs.length ∧
      (∀ j, j < h.objs.length → h'.objs[j]? = h.objs[j]?) ∧
      h'.objs[r]? = some (.resIdx (o.values.map (interpOp op))) := by
  obtain ⟨op, hop⟩ := Option.isSome_iff_exists.mp (accessorOp_resolves acc hacc)
  refine ⟨⟨h.objs ++ [.resIdx (o.values.map (interpOp op))]⟩, h.objs.length,
    op, hop, ?_, rfl, ?_, ?_⟩
  · simp [evalAccessor, hobj, hop]
  · intro j hj
    rw [List.getElem?_append]
    simp [hj]
  · exact List.getElem?_concat_length h.objs _

/-- Witness for C9 at a concrete input: evaluating `year` on the single
index object of `sampleHeap`. -/
theorem C9_accessor_frame_witness :
    ∃ (h' : Heap) (r : Nat) (op : DtOp),
      accessorOp "year" = some op ∧
      evalAccessor sampleHeap 0 "year" = some (h', r) ∧
      r = sampleHeap.objs.length ∧
      (∀ j, j < sampleHeap.objs.length → h'.objs[j]? = sampleHeap.objs[j]?) ∧
      h'.objs[r]? =
        some (.resIdx (([⟨2016, 12, 31, 0, 0, 0, 0⟩] :
          List Timestamp).map (interpOp op))) :=
  C9_accessor_frame sampleHeap 0 "year"
    ⟨[⟨2016, 12, 31, 0, 0, 0, 0⟩], Option.none⟩ rfl (by decide)

/-- C5: for an attribute not defined on the type, `__getattr__` consults
the compatibility registry: a registered property's getter is applied to
the index, a registered function is returned with the index bound as its
first argument, and an unregistered item raises `AttributeError` with a
message naming the `DatetimeIndex` type and the missing attribute. -/
theorem C5_getattr_fallback {π φ : Type}
    (registry : String → Option (RegistryEntry π φ))
    (self : DatetimeIndex) (item : String) :
    (∀ fget, registry item = some (.prop fget) →
      dtindex_getattr registry self item = .propValue (fget self)) ∧
    (∀ f, registry item = some (.func f) →
      dtindex_getattr registry self item = .boundFunc (f self)) ∧
    (registry item = Option.none →
      dtindex_getattr registry self item =
        .attrError ("'DatetimeIndex' object has no attribute '" ++ item
          ++ "'") ∧
      ∃ a b : String,
        ("'DatetimeIndex' object has no attribute '" ++ item ++ "'") =
          a ++ "DatetimeIndex" ++ b ++ item ++ "'") := by
  refine ⟨?_, ?_, ?_⟩
  · intro fget hreg
    simp [dtindex_getattr, hreg]
  · intro f hreg
    simp [dtindex_getattr, hreg]
  · intro hreg
    refine ⟨by simp [dtindex_getattr, hreg],
      "'", "' object has no attribute '", ?_⟩
    have hpre : ("'" ++ "DatetimeIndex" ++ "' object has no attribute '" :
        String) = "'DatetimeIndex' object has no attribute '" := by
      decide
    rw [hpre]

/-- Witness for C5 at concrete inputs: a registered property, a registered
function, and an absent item, against the sample registry. -/
theorem C5_getattr_fallback_witness :
    dtindex_getattr sampleRegistry emptyIdx "freq" = .propValue () ∧
    dtindex_getattr sampleRegistry emptyIdx "strftime" = .boundFunc () ∧
    dtindex_getattr sampleRegistry emptyIdx "asi8" =
      .attrError ("'DatetimeIndex' object has no attribute '" ++ "asi8"
        ++ "'") :=
  ⟨(C5_getattr_fallback sampleRegistry emptyIdx "freq").1 (fun _ => ()) rfl,
   (C5_getattr_fallback sampleRegistry emptyIdx "strftime").2.1
     (fun _ => ()) rfl,
   ((C5_getattr_fallback sampleRegistry emptyIdx "asi8").2.2 rfl).1⟩
